import Mathlib

/-!
Verification development for the `frozenisback/yt-apioptimized-` repository.

The repository ships a Flask application (`src/app.py`) that downloads and
caches audio/video via yt-dlp; that code is embedded below directly from the
source. The specification additionally describes a concurrent multi-part
downloader core (SegmentPlanner, MirrorProbe, SizeResolver, ParallelFetcher)
whose code is not present under `src/`; those components are modelled from
the specification's words, as marked in their doc comments.
-/

/- ### Segment planning -/

/-- A byte-range segment with inclusive `start` and `stop` offsets.
Modelled from the spec: the `Segment` record of §3 (the SegmentPlanner
source is not under `src/`). -/
@[ext]
structure Segment where
  start : Int
  stop : Int
deriving Repr, DecidableEq

/-- Error raised by `SegmentPlanner.plan` on bad inputs.
Modelled from the spec: the `InvalidPlan` error of §7. -/
inductive PlanError where
  | InvalidPlan
deriving Repr, DecidableEq

/-- Modelled from the spec: the segment assigned to worker `i` by
`SegmentPlanner.plan` (§4.3). With `base = totalSize div workerCount`,
segment `i` spans `[i*base, (i+1)*base - 1]` for all but the last worker,
and the last segment spans `[(workerCount-1)*base, totalSize-1]`. -/
def SegmentPlanner.segAt (totalSize workerCount : Int) (i : Nat) : Segment :=
  let base : Int := totalSize / workerCount
  let n : Nat := workerCount.toNat
  if i = n - 1 then
    { start := ((n : Int) - 1) * base, stop := totalSize - 1 }
  else
    { start := (i : Int) * base, stop := ((i : Int) + 1) * base - 1 }

/-- Modelled from the spec: the ordered sequence of segments produced by
`SegmentPlanner.plan` (§4.3) for valid inputs, one per worker. -/
def SegmentPlanner.planSegs (totalSize workerCount : Int) : List Segment :=
  (List.range workerCount.toNat).map (SegmentPlanner.segAt totalSize workerCount)

/-- Modelled from the spec: `SegmentPlanner.plan` (§4.3) is not under `src/`.
Fails with `InvalidPlan` when `totalSize <= 0` or `workerCount <= 0`,
otherwise returns the planned segment sequence. -/
def SegmentPlanner.plan (totalSize workerCount : Int) : Except PlanError (List Segment) :=
  if totalSize ≤ 0 ∨ workerCount ≤ 0 then
    Except.error PlanError.InvalidPlan
  else
    Except.ok (SegmentPlanner.planSegs totalSize workerCount)

/-- A byte offset `b` lies inside segment `s`. -/
def Segment.mem (s : Segment) (b : Int) : Prop :=
  s.start ≤ b ∧ b ≤ s.stop

instance (s : Segment) (b : Int) : Decidable (s.mem b) := by
  unfold Segment.mem
  infer_instance

/- ### Mirror probing -/

/-- Modelled from the spec: the measured latency of a probed candidate
(§4.1, §9): a candidate that errors or times out is scored as unreachable
(`none`), mapped to a sentinel maximum (`⊤`) rather than excluded. -/
def latencyScore : Option Nat → WithTop Nat
  | none => ⊤
  | some l => (l : WithTop Nat)

/-- Modelled from the spec: one reduction step of the fan-in that keeps the
fastest probed candidate (§4.1): a candidate replaces the current best
exactly when its measured latency is strictly smaller (so ties keep the
earlier-enumerated candidate); an unreachable candidate never replaces. -/
def betterProbe (best cand : String × Option Nat) : String × Option Nat :=
  match cand.2, best.2 with
  | some l, some m => if l < m then cand else best
  | some _, none => cand
  | none, _ => best

/-- Modelled from the spec: `MirrorProbe.selectFastest` (§4.1) is not under
`src/`. `probes` lists each synthesized candidate URL with its measured
latency (`none` = unreachable), in enumeration order; the reduction starts
from the original URL as a last-resort with unmeasured (sentinel) latency,
so when all candidates are unreachable the original URL is returned. -/
def MirrorProbe.selectFastest (originalURL : String) (probes : List (String × Option Nat)) : String :=
  (probes.foldl betterProbe (originalURL, none)).1

/- ### Size resolution -/

/-- Modelled from the spec: the `SizeUnknown` error of §7. -/
inductive SizeError where
  | SizeUnknown
deriving Repr, DecidableEq

/-- Modelled from the spec: what the three size probes of §4.2 returned for a
URL — the metadata probe's content-length field, the content-range-style
total, and the fallback streamed retrieval's length header (`none` when the
field is absent). -/
structure ProbeResponses where
  contentLength : Option Nat
  contentRangeTotal : Option Nat
  streamedLength : Option Nat
deriving Repr, DecidableEq

/-- Modelled from the spec: `SizeResolver.resolveSize` (§4.2) is not under
`src/`. Reads the content-length field if present; otherwise the
content-range total; otherwise the fallback streamed length, failing with
`SizeUnknown` when that is also absent or zero. -/
def SizeResolver.resolveSize (r : ProbeResponses) : Except SizeError Nat :=
  match r.contentLength with
  | some n => Except.ok n
  | none =>
    match r.contentRangeTotal with
    | some n => Except.ok n
    | none =>
      match r.streamedLength with
      | some n => if n = 0 then Except.error SizeError.SizeUnknown else Except.ok n
      | none => Except.error SizeError.SizeUnknown

/- ### Parallel fetching -/

/-- Modelled from the spec: a segment worker's terminal state (§3). -/
inductive SegOutcome where
  | succeeded
  | failed
deriving Repr, DecidableEq

/-- A terminal state counts as success exactly when it is `succeeded`. -/
def SegOutcome.isSuccess : SegOutcome → Bool
  | SegOutcome.succeeded => true
  | SegOutcome.failed => false

/-- Modelled from the spec: the aggregate `FetchFailed` error of §7. -/
inductive FetchError where
  | FetchFailed
deriving Repr, DecidableEq

/-- Modelled from the spec: the observable outcome of one `ParallelFetcher`
run (§4.5): whether the destination file was created, each segment's
individually-reported terminal state, and the overall result (a file path,
or `FetchFailed`). -/
structure FetchReport where
  fileCreated : Bool
  segmentStates : List SegOutcome
  result : Except FetchError String
deriving Repr

/-- Modelled from the spec: `ParallelFetcher.fetch` (§4.5) is not under
`src/`. `sizeResult` is what SizeResolver returned; `outcomes i` is the
terminal state segment worker `i` would reach, each worker independent of
the others. If size resolution or planning fails the fetch aborts before
any file is created; otherwise every planned segment runs, each reports its
own terminal state, and the overall result is the destination path when all
segments succeeded and `FetchFailed` otherwise. -/
def ParallelFetcher.fetch (sizeResult : Except SizeError Nat) (workerCount : Int)
    (outcomes : Nat → SegOutcome) (destPath : String) : FetchReport :=
  match sizeResult with
  | Except.error _ =>
    { fileCreated := false, segmentStates := [], result := Except.error FetchError.FetchFailed }
  | Except.ok totalSize =>
    match SegmentPlanner.plan (totalSize : Int) workerCount with
    | Except.error _ =>
      { fileCreated := false, segmentStates := [], result := Except.error FetchError.FetchFailed }
    | Except.ok segs =>
      let states := (List.range segs.length).map outcomes
      { fileCreated := true
        segmentStates := states
        result :=
          if states.all SegOutcome.isSuccess then Except.ok destPath
          else Except.error FetchError.FetchFailed }

/- ### The Flask application (embedded from src/app.py) -/

/-- `MAX_CACHE_SIZE = 500 * 1024 * 1024` (src/app.py line 29). -/
def MAX_CACHE_SIZE : Nat := 500 * 1024 * 1024

/-- `CACHE_DIR = os.path.join(BASE_TEMP_DIR, "cache")` (src/app.py line 21). -/
def CACHE_DIR : String := "/tmp/cache"

/-- `CACHE_VIDEO_DIR = os.path.join(BASE_TEMP_DIR, "cache_video")` (line 25). -/
def CACHE_VIDEO_DIR : String := "/tmp/cache_video"

/-- The on-disk state the app mutates: the files (name, byte size) currently
in `CACHE_DIR` and in `CACHE_VIDEO_DIR`. -/
structure CacheState where
  cacheFiles : List (String × Nat)
  cacheVideoFiles : List (String × Nat)
deriving Repr, DecidableEq

/-- `get_directory_size` (src/app.py lines 42-50): total size in bytes of
the files under one directory. -/
def get_directory_size (files : List (String × Nat)) : Nat :=
  (files.map Prod.snd).sum

/-- `check_cache_size_and_cleanup` (src/app.py lines 52-65): if the combined
size of both cache directories exceeds `MAX_CACHE_SIZE`, remove every file
in both directories (flush-all); otherwise leave the state untouched. -/
def check_cache_size_and_cleanup (s : CacheState) : CacheState :=
  let total := get_directory_size s.cacheFiles + get_directory_size s.cacheVideoFiles
  if total > MAX_CACHE_SIZE then
    { cacheFiles := [], cacheVideoFiles := [] }
  else
    s

/-- `get_cache_key` (src/app.py lines 38-40): the MD5 hex digest of the
video URL. The digest function itself is a binding to `hashlib.md5` and is
taken as a parameter `md5hex`. -/
def get_cache_key (md5hex : String → String) (video_url : String) : String :=
  md5hex video_url

/-- The glob pattern of src/app.py line 92 (the cache key followed by a dot and a wildcard): a cache file
matches the key exactly when its name starts with `cache_key` followed by a
dot (MD5 hex keys contain no glob metacharacters). -/
def cacheKeyMatches (cache_key file : String) : Bool :=
  decide ( List.IsPrefix ((cache_key ++ ".").data) file.data)

/-- `download_audio` (src/app.py lines 85-132). `md5hex` is the hash
binding; `dl` is what the yt-dlp download would produce for this URL — the
final file's extension and byte size on success, `none` when yt-dlp raises.
Returns `none` when the function raises, otherwise the returned cache file
path, the resulting cache state, and whether a new download was started.
On a cache hit (a file in `CACHE_DIR` whose name starts with the key and a dot exists) the first
matching file's path is returned with no download and no state change;
otherwise the download runs, the file is moved into `CACHE_DIR` under the key and extension,
and `check_cache_size_and_cleanup` runs. -/
def download_audio (md5hex : String → String) (dl : Option (String × Nat))
    (s : CacheState) (video_url : String) : Option (String × CacheState × Bool) :=
  let cache_key := get_cache_key md5hex video_url
  match s.cacheFiles.find? (fun f => cacheKeyMatches cache_key f.1) with
  | some f => some (CACHE_DIR ++ "/" ++ f.1, s, false)
  | none =>
    match dl with
    | none => none
    | some (ext, size) =>
      let fname := cache_key ++ "." ++ ext
      let s1 : CacheState :=
        { cacheFiles := (fname, size) :: s.cacheFiles, cacheVideoFiles := s.cacheVideoFiles }
      some (CACHE_DIR ++ "/" ++ fname, check_cache_size_and_cleanup s1, true)

/-- The outcome of the one `requests.get(SEARCH_API_URL, ...)` call that
`resolve_spotify_link` may issue: non-200 status, a 200 JSON body without a
link field, or a 200 JSON body carrying a link. -/
inductive ApiResponse where
  | httpError
  | noLink
  | link (l : String)
deriving Repr, DecidableEq

/-- The Python test `"spotify.com" in url` (src/app.py line 72): substring
containment. -/
def containsSpotify (url : String) : Bool :=
  decide ( List.IsInfix ("spotify.com".data) url.data)

/-- `resolve_spotify_link` (src/app.py lines 67-83). `api` is what the
search API call would return if issued. Result: `Except.error` models a
raised exception, `Except.ok` the returned URL; the `Bool` records whether
a network request was performed. -/
def resolve_spotify_link (api : ApiResponse) (url : String) : Except String String × Bool :=
  if containsSpotify url then
    match api with
    | ApiResponse.httpError =>
      (Except.error "Failed to fetch search results for the Spotify link", true)
    | ApiResponse.noLink =>
      (Except.error "No YouTube link found for the given Spotify link", true)
    | ApiResponse.link l => (Except.ok l, true)
  else
    (Except.ok url, false)

/-- The outcome of the title-search API call issued by the endpoints. -/
inductive SearchResult where
  | apiError
  | noLink
  | link (l : String)
deriving Repr, DecidableEq

/-- Python truthiness of `request.args.get(...)`: `None` (absent parameter)
and the empty string are falsy. -/
def truthyOpt : Option String → Bool
  | none => false
  | some s => !(s == "")

/-- Python truthiness of a string value. -/
def truthyStr (s : String) : Bool :=
  !(s == "")

/-- The title-resolution step shared by both endpoints (src/app.py lines
271-280 and 224-233): when a truthy `title` is supplied without a truthy
`url`, the search API is consulted — non-200 yields status 500, a body
without a link yields 404, otherwise the found link becomes the video URL;
with a truthy `url` that value is used directly. `Except.error` carries the
error status responded with. -/
def endpoint_resolve_url (search : SearchResult) (url title : Option String) :
    Except Nat String :=
  if truthyOpt title && !truthyOpt url then
    match search with
    | SearchResult.apiError => Except.error 500
    | SearchResult.noLink => Except.error 404
    | SearchResult.link l => Except.ok l
  else Except.ok (url.getD "")

/-- The Spotify-resolution step shared by both endpoints (src/app.py lines
282-283 and 236-237): when the video URL is truthy and contains
`"spotify.com"`, `resolve_spotify_link` is called; if it raises, the outer
`except` answers 500. -/
def endpoint_spotify_step (spotifyApi : ApiResponse) (u : String) :
    Except Nat String :=
  if truthyStr u && containsSpotify u then
    match resolve_spotify_link spotifyApi u with
    | (Except.error _, _) => Except.error 500
    | (Except.ok l, _) => Except.ok l
  else Except.ok u

/-- `download_audio_endpoint` — the `/download` route (src/app.py lines
258-302) — reduced to the HTTP status it responds with. `search` is the
search API's behaviour if called, `spotifyApi` the behaviour of the call
inside `resolve_spotify_link`, `dl` the audio download outcome (`some path`
on success, `none` when it raises). Returns 400 when neither `url` nor
`title` is truthy; 500/404 on search failure; 500 when Spotify resolution
or the download raises (the outer `except` catches and returns 500); 200 on
success. -/
def download_audio_endpoint (search : SearchResult) (spotifyApi : ApiResponse)
    (dl : Option String) (url title : Option String) : Nat :=
  if !truthyOpt url && !truthyOpt title then 400
  else
    match endpoint_resolve_url search url title with
    | Except.error status => status
    | Except.ok u =>
      match endpoint_spotify_step spotifyApi u with
      | Except.error status => status
      | Except.ok _ =>
        match dl with
        | none => 500
        | some _ => 200

/-- `download_video_endpoint` — the `/vdown` route (src/app.py lines
210-256) — reduced to the HTTP status it responds with; same control flow
as `/download` with `download_video` in place of `download_audio`. -/
def download_video_endpoint (search : SearchResult) (spotifyApi : ApiResponse)
    (dl : Option String) (url title : Option String) : Nat :=
  if !truthyOpt url && !truthyOpt title then 400
  else
    match endpoint_resolve_url search url title with
    | Except.error status => status
    | Except.ok u =>
      match endpoint_spotify_step spotifyApi u with
      | Except.error status => status
      | Except.ok _ =>
        match dl with
        | none => 500
        | some _ => 200

/- ### Segment planner lemmas -/

lemma SegmentPlanner.base_nonneg (t w : Int) (ht : 0 < t) (hw : 0 < w) :
    0 ≤ t / w :=
  Int.ediv_nonneg ht.le hw.le

lemma SegmentPlanner.mul_base_le (t w : Int) (hw : 0 < w) :
    w * (t / w) ≤ t := by
  have h := Int.ediv_add_emod t w
  have h2 := Int.emod_nonneg t (ne_of_gt hw)
  linarith

lemma SegmentPlanner.planSegs_length (t w : Int) :
    (SegmentPlanner.planSegs t w).length = w.toNat := by
  simp [SegmentPlanner.planSegs]

lemma SegmentPlanner.planSegs_get (t w : Int) (i : Nat)
    (hi : i < (SegmentPlanner.planSegs t w).length) :
    (SegmentPlanner.planSegs t w).get ⟨i, hi⟩ = SegmentPlanner.segAt t w i := by
  simp [SegmentPlanner.planSegs]

lemma SegmentPlanner.segAt_start (t w : Int) (i : Nat) (hi : i < w.toNat) :
    (SegmentPlanner.segAt t w i).start = (i : Int) * (t / w) := by
  unfold SegmentPlanner.segAt
  by_cases h : i = w.toNat - 1
  · subst h
    simp only [if_pos rfl]
    have h1 : (1 : Nat) ≤ w.toNat := by omega
    have h2 : ((w.toNat - 1 : Nat) : Int) = (w.toNat : Int) - 1 := by
      push_cast [h1]
      ring
    rw [h2]
    simp
  · simp [h]

lemma SegmentPlanner.segAt_stop_last (t w : Int) :
    (SegmentPlanner.segAt t w (w.toNat - 1)).stop = t - 1 := by
  simp [SegmentPlanner.segAt]

lemma SegmentPlanner.segAt_stop_mid (t w : Int) (i : Nat) (h : i ≠ w.toNat - 1) :
    (SegmentPlanner.segAt t w i).stop = ((i : Int) + 1) * (t / w) - 1 := by
  simp [SegmentPlanner.segAt, h]

lemma SegmentPlanner.segAt_stop_le (t w : Int) (ht : 0 < t) (hw : 0 < w)
    (i : Nat) (hi : i < w.toNat) :
    (SegmentPlanner.segAt t w i).stop ≤ t - 1 := by
  by_cases h : i = w.toNat - 1
  · subst h
    rw [SegmentPlanner.segAt_stop_last]
  · rw [SegmentPlanner.segAt_stop_mid t w i h]
    have hle : ((i : Int) + 1) ≤ w := by
      have hiw : i + 1 ≤ w.toNat := hi
      have : ((i : Int) + 1) ≤ (w.toNat : Int) := by exact_mod_cast hiw
      rwa [Int.toNat_of_nonneg hw.le] at this
    have h1 : ((i : Int) + 1) * (t / w) ≤ w * (t / w) :=
      mul_le_mul_of_nonneg_right hle (SegmentPlanner.base_nonneg t w ht hw)
    have h2 := SegmentPlanner.mul_base_le t w hw
    linarith

lemma SegmentPlanner.segAt_stop_lt_start (t w : Int) (ht : 0 < t) (hw : 0 < w)
    (i j : Nat) (hij : i < j) (hj : j < w.toNat) :
    (SegmentPlanner.segAt t w i).stop < (SegmentPlanner.segAt t w j).start := by
  have hin : i ≠ w.toNat - 1 := by omega
  rw [SegmentPlanner.segAt_stop_mid t w i hin, SegmentPlanner.segAt_start t w j hj]
  have hle : ((i : Int) + 1) ≤ (j : Int) := by exact_mod_cast hij
  have h1 : ((i : Int) + 1) * (t / w) ≤ (j : Int) * (t / w) :=
    mul_le_mul_of_nonneg_right hle (SegmentPlanner.base_nonneg t w ht hw)
  linarith

lemma SegmentPlanner.segAt_last_start (t w : Int) :
    (SegmentPlanner.segAt t w (w.toNat - 1)).start = ((w.toNat : Int) - 1) * (t / w) := by
  simp [SegmentPlanner.segAt]

lemma SegmentPlanner.segAt_mem_bounds (t w : Int) (ht : 0 < t) (hw : 0 < w)
    (i : Nat) (hi : i < w.toNat) (b : Int) (hb : (SegmentPlanner.segAt t w i).mem b) :
    0 ≤ b ∧ b ≤ t - 1 := by
  obtain ⟨h1, h2⟩ := hb
  rw [SegmentPlanner.segAt_start t w i hi] at h1
  have hs := SegmentPlanner.segAt_stop_le t w ht hw i hi
  have h0 : (0 : Int) ≤ (i : Int) * (t / w) :=
    mul_nonneg (Int.natCast_nonneg i) (SegmentPlanner.base_nonneg t w ht hw)
  exact ⟨le_trans h0 h1, le_trans h2 hs⟩

lemma SegmentPlanner.segAt_cover (t w : Int) (ht : 0 < t) (hw : 0 < w)
    (b : Int) (hb0 : 0 ≤ b) (hb1 : b ≤ t - 1) :
    ∃ i : Nat, i < w.toNat ∧ (SegmentPlanner.segAt t w i).mem b := by
  have hn1 : 1 ≤ w.toNat := by omega
  by_cases hbase : 0 < t / w
  · set q : Int := b / (t / w) with hqdef
    have hq0 : 0 ≤ q := Int.ediv_nonneg hb0 hbase.le
    have hqb : q * (t / w) ≤ b := by
      have hdm := Int.ediv_add_emod b (t / w)
      have hm := Int.emod_nonneg b (ne_of_gt hbase)
      have : (t / w) * q ≤ b := by rw [hqdef]; linarith
      linarith [mul_comm q (t / w)]
    have hblt : b < (q + 1) * (t / w) := Int.lt_ediv_add_one_mul_self b hbase
    by_cases hcase : q < (w.toNat : Int) - 1
    · refine ⟨q.toNat, by omega, ?_⟩
      have hqt : ((q.toNat : Int)) = q := Int.toNat_of_nonneg hq0
      have hne : q.toNat ≠ w.toNat - 1 := by omega
      have hlt : q.toNat < w.toNat := by omega
      constructor
      · rw [SegmentPlanner.segAt_start t w q.toNat hlt, hqt]
        exact hqb
      · rw [SegmentPlanner.segAt_stop_mid t w q.toNat hne, hqt]
        omega
    · refine ⟨w.toNat - 1, by omega, ?_⟩
      constructor
      · rw [SegmentPlanner.segAt_last_start]
        have hge : (w.toNat : Int) - 1 ≤ q := by omega
        have h1 : ((w.toNat : Int) - 1) * (t / w) ≤ q * (t / w) :=
          mul_le_mul_of_nonneg_right hge hbase.le
        linarith
      · rw [SegmentPlanner.segAt_stop_last]
        exact hb1
  · have hz : t / w = 0 := by
      have := SegmentPlanner.base_nonneg t w ht hw
      omega
    refine ⟨w.toNat - 1, by omega, ?_⟩
    constructor
    · rw [SegmentPlanner.segAt_last_start, hz]
      simpa using hb0
    · rw [SegmentPlanner.segAt_stop_last]
      exact hb1

lemma SegmentPlanner.planSegs_getElem (t w : Int) (i : Nat)
    (hi : i < (SegmentPlanner.planSegs t w).length) :
    (SegmentPlanner.planSegs t w)[i] = SegmentPlanner.segAt t w i := by
  simp [SegmentPlanner.planSegs]

/- ### Claim theorems: segment planning -/

/-- Claim C1: For every `totalSize > 0` and `workerCount > 0`,
`SegmentPlanner.plan` succeeds and returns a sequence of segments that is
ordered by start offset, contiguous, pairwise disjoint, whose union is
exactly the byte range `[0, totalSize-1]`, and whose last segment spans
`[(workerCount-1)*(totalSize div workerCount), totalSize-1]`, absorbing the
integer-division remainder. -/
theorem SegmentPlanner.plan_partition (t w : Int) (ht : 0 < t) (hw : 0 < w) :
    SegmentPlanner.plan t w = Except.ok (SegmentPlanner.planSegs t w) ∧
    (∀ i j : Nat, (hi : i < (SegmentPlanner.planSegs t w).length) →
      (hj : j < (SegmentPlanner.planSegs t w).length) → i ≤ j →
      ((SegmentPlanner.planSegs t w).get ⟨i, hi⟩).start ≤
        ((SegmentPlanner.planSegs t w).get ⟨j, hj⟩).start) ∧
    (∀ i : Nat, (h : i + 1 < (SegmentPlanner.planSegs t w).length) →
      ((SegmentPlanner.planSegs t w).get ⟨i + 1, h⟩).start =
        ((SegmentPlanner.planSegs t w).get ⟨i, Nat.lt_of_succ_lt h⟩).stop + 1) ∧
    (∀ i j : Nat, (hi : i < (SegmentPlanner.planSegs t w).length) →
      (hj : j < (SegmentPlanner.planSegs t w).length) → i ≠ j → ∀ b : Int,
      ¬(((SegmentPlanner.planSegs t w).get ⟨i, hi⟩).mem b ∧
        ((SegmentPlanner.planSegs t w).get ⟨j, hj⟩).mem b)) ∧
    (∀ b : Int, (∃ s ∈ SegmentPlanner.planSegs t w, s.mem b) ↔ 0 ≤ b ∧ b ≤ t - 1) ∧
    (SegmentPlanner.planSegs t w).getLast? =
      some { start := (w - 1) * (t / w), stop := t - 1 } := by
  have hlen := SegmentPlanner.planSegs_length t w
  refine ⟨?_, ?_, ?_, ?_, ?_, ?_⟩
  · unfold SegmentPlanner.plan
    rw [if_neg (by omega)]
  · intro i j hi hj hij
    rw [SegmentPlanner.planSegs_get, SegmentPlanner.planSegs_get,
      SegmentPlanner.segAt_start t w i (by omega),
      SegmentPlanner.segAt_start t w j (by omega)]
    exact mul_le_mul_of_nonneg_right (by exact_mod_cast hij)
      (SegmentPlanner.base_nonneg t w ht hw)
  · intro i h
    have hi1 : i + 1 < w.toNat := by omega
    rw [SegmentPlanner.planSegs_get, SegmentPlanner.planSegs_get,
      SegmentPlanner.segAt_start t w (i + 1) hi1,
      SegmentPlanner.segAt_stop_mid t w i (by omega)]
    push_cast
    ring
  · intro i j hi hj hne b hmem
    rw [SegmentPlanner.planSegs_get, SegmentPlanner.planSegs_get] at hmem
    obtain ⟨⟨hi1, hi2⟩, hj1, hj2⟩ := hmem
    rcases lt_or_gt_of_ne hne with hlt | hgt
    · have hd := SegmentPlanner.segAt_stop_lt_start t w ht hw i j hlt (by omega)
      linarith
    · have hd := SegmentPlanner.segAt_stop_lt_start t w ht hw j i hgt (by omega)
      linarith
  · intro b
    constructor
    · rintro ⟨s, hs, hmem⟩
      simp only [SegmentPlanner.planSegs, List.mem_map, List.mem_range] at hs
      obtain ⟨i, hi, rfl⟩ := hs
      exact SegmentPlanner.segAt_mem_bounds t w ht hw i hi b hmem
    · rintro ⟨hb0, hb1⟩
      obtain ⟨i, hi, hm⟩ := SegmentPlanner.segAt_cover t w ht hw b hb0 hb1
      refine ⟨SegmentPlanner.segAt t w i, ?_, hm⟩
      simp only [SegmentPlanner.planSegs, List.mem_map, List.mem_range]
      exact ⟨i, hi, rfl⟩
  · have h1 : (SegmentPlanner.planSegs t w).length - 1 <
        (SegmentPlanner.planSegs t w).length := by omega
    rw [List.getLast?_eq_getElem?, List.getElem?_eq_getElem h1,
      SegmentPlanner.planSegs_getElem t w _ h1]
    have h2 : (SegmentPlanner.planSegs t w).length - 1 = w.toNat - 1 := by omega
    rw [h2]
    have h5 : ((w.toNat : Int)) = w := Int.toNat_of_nonneg hw.le
    have h6 : SegmentPlanner.segAt t w (w.toNat - 1) =
        { start := (w - 1) * (t / w), stop := t - 1 } := by
      ext
      · rw [SegmentPlanner.segAt_last_start, h5]
      · rw [SegmentPlanner.segAt_stop_last]
    rw [h6]

/-- Witness for C1 at `totalSize = 1001`, `workerCount = 4`. -/
theorem SegmentPlanner.plan_partition_witness :
    SegmentPlanner.plan 1001 4 = Except.ok (SegmentPlanner.planSegs 1001 4) ∧
    (SegmentPlanner.planSegs 1001 4).getLast? = some { start := 750, stop := 1000 } :=
  ⟨(SegmentPlanner.plan_partition 1001 4 (by decide) (by decide)).1,
   (SegmentPlanner.plan_partition 1001 4 (by decide) (by decide)).2.2.2.2.2⟩

/-- Claim C5: For every input pair with `totalSize ≤ 0` or `workerCount ≤ 0`,
`SegmentPlanner.plan` fails with `InvalidPlan`; the error result carries no
segments. -/
theorem SegmentPlanner.plan_invalid (t w : Int) (h : t ≤ 0 ∨ w ≤ 0) :
    SegmentPlanner.plan t w = Except.error PlanError.InvalidPlan := by
  unfold SegmentPlanner.plan
  rw [if_pos h]

/-- Witness for C5 at `totalSize = 0`, `workerCount = 4`. -/
theorem SegmentPlanner.plan_invalid_witness :
    SegmentPlanner.plan 0 4 = Except.error PlanError.InvalidPlan :=
  SegmentPlanner.plan_invalid 0 4 (by decide)

/-- Claim C6: `plan 1001 4` returns exactly four segments, the first three of
250 bytes each (`[0,249]`, `[250,499]`, `[500,749]`) and the last the
251-byte range `[750,1000]`; `plan 1000 4` returns exactly
`[0,249],[250,499],[500,749],[750,999]`. -/
theorem SegmentPlanner.plan_examples :
    SegmentPlanner.plan 1001 4 =
      Except.ok [{ start := 0, stop := 249 }, { start := 250, stop := 499 },
        { start := 500, stop := 749 }, { start := 750, stop := 1000 }] ∧
    SegmentPlanner.plan 1000 4 =
      Except.ok [{ start := 0, stop := 249 }, { start := 250, stop := 499 },
        { start := 500, stop := 749 }, { start := 750, stop := 999 }] := by
  exact ⟨rfl, rfl⟩

/- ### Claim theorems: parallel fetching and size resolution -/

/-- Claim C2: If at least one of the planned segment downloads fails,
`ParallelFetcher.fetch` returns the `FetchFailed` outcome — never a file
path — while every segment's individually-reported terminal state is still
exactly its own worker's outcome, so one segment's failure does not change
the reported success of the others (partial-failure isolation). -/
theorem ParallelFetcher.fetch_partial_failure (t : Nat) (w : Int)
    (out : Nat → SegOutcome) (p : String) (ht : 0 < t) (hw : 0 < w)
    (j : Nat) (hj : j < w.toNat) (hfail : out j = SegOutcome.failed) :
    (∀ q : String, (ParallelFetcher.fetch (Except.ok t) w out p).result ≠ Except.ok q) ∧
    (ParallelFetcher.fetch (Except.ok t) w out p).result =
      Except.error FetchError.FetchFailed ∧
    (ParallelFetcher.fetch (Except.ok t) w out p).segmentStates.length = w.toNat ∧
    (∀ i : Nat, (hi : i < (ParallelFetcher.fetch (Except.ok t) w out p).segmentStates.length) →
      (ParallelFetcher.fetch (Except.ok t) w out p).segmentStates.get ⟨i, hi⟩ = out i) := by
  have hplan : SegmentPlanner.plan (t : Int) w =
      Except.ok (SegmentPlanner.planSegs (t : Int) w) := by
    unfold SegmentPlanner.plan
    rw [if_neg (by omega)]
  have hlen := SegmentPlanner.planSegs_length (t : Int) w
  have hall : ((List.range (SegmentPlanner.planSegs (t : Int) w).length).map out).all
      SegOutcome.isSuccess = false := by
    rw [List.all_eq_false]
    refine ⟨out j, ?_, ?_⟩
    · simp only [List.mem_map, List.mem_range]
      exact ⟨j, by omega, rfl⟩
    · rw [hfail]
      simp [SegOutcome.isSuccess]
  have hfetch : ParallelFetcher.fetch (Except.ok t) w out p =
      { fileCreated := true,
        segmentStates := (List.range (SegmentPlanner.planSegs (t : Int) w).length).map out,
        result := Except.error FetchError.FetchFailed } := by
    unfold ParallelFetcher.fetch
    simp only [hplan, hall]
    simp
  rw [hfetch]
  refine ⟨?_, ?_, ?_, ?_⟩
  · intro q hq
    simp at hq
  · rfl
  · simp [hlen]
  · intro i hi
    simp

/-- Witness for C2: two workers on 10 bytes, worker 0 fails. -/
theorem ParallelFetcher.fetch_partial_failure_witness :
    (ParallelFetcher.fetch (Except.ok 10) 2
      (fun i => if i = 0 then SegOutcome.failed else SegOutcome.succeeded) "/tmp/f").result =
      Except.error FetchError.FetchFailed :=
  (ParallelFetcher.fetch_partial_failure 10 2
    (fun i => if i = 0 then SegOutcome.failed else SegOutcome.succeeded) "/tmp/f"
    (by decide) (by decide) 0 (by decide) (by decide)).2.1

/-- Claim C4: `SizeResolver.resolveSize` fails with `SizeUnknown` exactly when
the metadata probe yields no content-length field, no content-range-style
total, and the fallback streamed length is absent or zero; and whenever it
so fails, the parallel fetch aborts with `FetchFailed` before any file is
created. -/
theorem SizeResolver.resolveSize_sizeUnknown (r : ProbeResponses) :
    (SizeResolver.resolveSize r = Except.error SizeError.SizeUnknown ↔
      r.contentLength = none ∧ r.contentRangeTotal = none ∧
        (r.streamedLength = none ∨ r.streamedLength = some 0)) ∧
    (∀ (w : Int) (out : Nat → SegOutcome) (p : String),
      SizeResolver.resolveSize r = Except.error SizeError.SizeUnknown →
      (ParallelFetcher.fetch (SizeResolver.resolveSize r) w out p).fileCreated = false ∧
      (ParallelFetcher.fetch (SizeResolver.resolveSize r) w out p).result =
        Except.error FetchError.FetchFailed) := by
  obtain ⟨cl, cr, sl⟩ := r
  constructor
  · cases cl with
    | some n => simp [SizeResolver.resolveSize]
    | none =>
      cases cr with
      | some n => simp [SizeResolver.resolveSize]
      | none =>
        cases sl with
        | none => simp [SizeResolver.resolveSize]
        | some n =>
          simp only [SizeResolver.resolveSize]
          split <;> simp_all
  · intro w out p h
    rw [h]
    exact ⟨rfl, rfl⟩

/-- Witness for C4: all probes empty except a zero-length streamed
fallback; the fetch aborts without creating a file. -/
theorem SizeResolver.resolveSize_sizeUnknown_witness :
    (ParallelFetcher.fetch (SizeResolver.resolveSize ⟨none, none, some 0⟩) 4
      (fun _ => SegOutcome.succeeded) "/tmp/f").fileCreated = false ∧
    (ParallelFetcher.fetch (SizeResolver.resolveSize ⟨none, none, some 0⟩) 4
      (fun _ => SegOutcome.succeeded) "/tmp/f").result =
      Except.error FetchError.FetchFailed :=
  (SizeResolver.resolveSize_sizeUnknown ⟨none, none, some 0⟩).2 4
    (fun _ => SegOutcome.succeeded) "/tmp/f" rfl

/- ### Claim theorems: mirror probing -/

lemma betterProbe_eq_ite (best cand : String × Option Nat) :
    betterProbe best cand =
      if latencyScore cand.2 < latencyScore best.2 then cand else best := by
  rcases cand with ⟨cu, c2⟩
  rcases best with ⟨bu, b2⟩
  cases c2 <;> cases b2 <;>
    simp [betterProbe, latencyScore, WithTop.coe_lt_top, Nat.cast_lt]

lemma foldl_betterProbe_spec (acc : String × Option Nat)
    (xs : List (String × Option Nat)) :
    (xs.foldl betterProbe acc = acc ∧
      ∀ x ∈ xs, latencyScore acc.2 ≤ latencyScore x.2) ∨
    (∃ l₁ r l₂, xs = l₁ ++ r :: l₂ ∧ xs.foldl betterProbe acc = r ∧
      latencyScore r.2 < latencyScore acc.2 ∧
      (∀ x ∈ l₁, latencyScore r.2 < latencyScore x.2) ∧
      (∀ x ∈ l₂, latencyScore r.2 ≤ latencyScore x.2)) := by
  induction xs generalizing acc with
  | nil =>
    left
    exact ⟨rfl, by simp⟩
  | cons x xs ih =>
    rw [List.foldl_cons, betterProbe_eq_ite]
    by_cases h : latencyScore x.2 < latencyScore acc.2
    · rw [if_pos h]
      rcases ih x with ⟨heq, hall⟩ | ⟨l₁, r, l₂, hxs, heq, hlt, hl₁, hl₂⟩
      · right
        exact ⟨[], x, xs, by simp, heq, h, by simp, hall⟩
      · right
        refine ⟨x :: l₁, r, l₂, by simp [hxs], heq, lt_trans hlt h, ?_, hl₂⟩
        intro y hy
        rcases List.mem_cons.mp hy with rfl | hy'
        · exact hlt
        · exact hl₁ y hy'
    · rw [if_neg h]
      rcases ih acc with ⟨heq, hall⟩ | ⟨l₁, r, l₂, hxs, heq, hlt, hl₁, hl₂⟩
      · left
        refine ⟨heq, ?_⟩
        intro y hy
        rcases List.mem_cons.mp hy with rfl | hy'
        · exact not_lt.mp h
        · exact hall y hy'
      · right
        refine ⟨x :: l₁, r, l₂, by simp [hxs], heq, hlt, ?_, hl₂⟩
        intro y hy
        rcases List.mem_cons.mp hy with rfl | hy'
        · exact lt_of_lt_of_le hlt (not_lt.mp h)
        · exact hl₁ y hy'

/-- Claim C3: If every synthesized candidate is unreachable,
`MirrorProbe.selectFastest` returns the original URL unchanged; and if at
least one candidate is reachable, the selected URL is that of a reachable
candidate of minimum measured latency, every earlier-enumerated candidate
having strictly greater latency (ties broken by first-enumerated order). -/
theorem MirrorProbe.selectFastest_correct (orig : String)
    (probes : List (String × Option Nat)) :
    ((∀ x ∈ probes, x.2 = none) → MirrorProbe.selectFastest orig probes = orig) ∧
    (∀ c l, (c, some l) ∈ probes →
      ∃ l₁ r l₂, probes = l₁ ++ r :: l₂ ∧ r.2 ≠ none ∧
        MirrorProbe.selectFastest orig probes = r.1 ∧
        (∀ x ∈ probes, latencyScore r.2 ≤ latencyScore x.2) ∧
        (∀ x ∈ l₁, latencyScore r.2 < latencyScore x.2)) := by
  have hmain := foldl_betterProbe_spec (orig, none) probes
  constructor
  · intro hall
    rcases hmain with ⟨heq, _⟩ | ⟨l₁, r, l₂, hxs, heq, hlt, _, _⟩
    · unfold MirrorProbe.selectFastest
      rw [heq]
    · exfalso
      have hr : r ∈ probes := by
        rw [hxs]
        simp
      have hnone := hall r hr
      rw [hnone] at hlt
      simp [latencyScore] at hlt
  · intro c l hmem
    rcases hmain with ⟨heq, hall⟩ | ⟨l₁, r, l₂, hxs, heq, hlt, hl₁, hl₂⟩
    · exfalso
      have hle := hall (c, some l) hmem
      simp [latencyScore] at hle
    · refine ⟨l₁, r, l₂, hxs, ?_, ?_, ?_, hl₁⟩
      · intro hn
        rw [hn] at hlt
        simp [latencyScore] at hlt
      · unfold MirrorProbe.selectFastest
        rw [heq]
      · intro x hx
        rw [hxs] at hx
        rcases List.mem_append.mp hx with h1 | h2
        · exact (hl₁ x h1).le
        · rcases List.mem_cons.mp h2 with rfl | h3
          · exact le_refl _
          · exact hl₂ x h3

/-- Witness for C3: with all candidates unreachable the original URL is
returned; with two reachable candidates tied at latency 5, the selected
candidate exists, is reachable, and has minimal latency. -/
theorem MirrorProbe.selectFastest_correct_witness :
    MirrorProbe.selectFastest "http://orig.example/f"
      [("a.example", none), ("b.example", none)] = "http://orig.example/f" ∧
    (∃ l₁ r l₂,
      ([("a.example", none), ("b.example", some 5), ("c.example", some 5)] :
          List (String × Option Nat)) = l₁ ++ r :: l₂ ∧ r.2 ≠ none ∧
      MirrorProbe.selectFastest "http://orig.example/f"
        [("a.example", none), ("b.example", some 5), ("c.example", some 5)] = r.1 ∧
      (∀ x ∈ ([("a.example", none), ("b.example", some 5), ("c.example", some 5)] :
          List (String × Option Nat)), latencyScore r.2 ≤ latencyScore x.2) ∧
      (∀ x ∈ l₁, latencyScore r.2 < latencyScore x.2)) :=
  ⟨(MirrorProbe.selectFastest_correct "http://orig.example/f"
      [("a.example", none), ("b.example", none)]).1 (by decide),
   (MirrorProbe.selectFastest_correct "http://orig.example/f"
      [("a.example", none), ("b.example", some 5), ("c.example", some 5)]).2
      "b.example" 5 (by decide)⟩

/- ### Claim theorems: the Flask application -/

/-- Claim C7: After `check_cache_size_and_cleanup`, if the combined byte size
of the audio and video cache directories exceeded `MAX_CACHE_SIZE` (500 MB)
then every file in both directories is removed (flush-all, not partial
eviction); if it did not exceed the threshold, no cache file is removed. -/
theorem check_cache_size_and_cleanup_spec (s : CacheState) :
    (get_directory_size s.cacheFiles + get_directory_size s.cacheVideoFiles >
        MAX_CACHE_SIZE →
      check_cache_size_and_cleanup s = { cacheFiles := [], cacheVideoFiles := [] }) ∧
    (get_directory_size s.cacheFiles + get_directory_size s.cacheVideoFiles ≤
        MAX_CACHE_SIZE →
      check_cache_size_and_cleanup s = s) := by
  constructor
  · intro h
    unfold check_cache_size_and_cleanup
    rw [if_pos h]
  · intro h
    unfold check_cache_size_and_cleanup
    rw [if_neg (by omega)]

/-- Witness for C7: a 600 MB cache is flushed entirely; a small cache is
left untouched. -/
theorem check_cache_size_and_cleanup_spec_witness :
    check_cache_size_and_cleanup ⟨[("big.m4a", 600 * 1024 * 1024)], []⟩ =
      { cacheFiles := [], cacheVideoFiles := [] } ∧
    check_cache_size_and_cleanup ⟨[("small.m4a", 1024)], [("v.mp4", 2048)]⟩ =
      ⟨[("small.m4a", 1024)], [("v.mp4", 2048)]⟩ :=
  ⟨(check_cache_size_and_cleanup_spec ⟨[("big.m4a", 600 * 1024 * 1024)], []⟩).1
      (by decide),
   (check_cache_size_and_cleanup_spec ⟨[("small.m4a", 1024)], [("v.mp4", 2048)]⟩).2
      (by decide)⟩

lemma download_audio_path_key (md5hex : String → String) (url : String)
    (dl : Option (String × Nat)) (s : CacheState) (p : String) (s' : CacheState)
    (b : Bool) (h : download_audio md5hex dl s url = some (p, s', b)) :
    List.IsPrefix ((CACHE_DIR ++ "/" ++ get_cache_key md5hex url ++ ".").data) p.data := by
  simp only [download_audio] at h
  cases hf : s.cacheFiles.find?
      (fun f => cacheKeyMatches (get_cache_key md5hex url) f.1) with
  | some f =>
    rw [hf] at h
    simp only [Option.some.injEq, Prod.mk.injEq] at h
    obtain ⟨hp, hs, hb⟩ := h
    have hmatch := List.find?_some hf
    have hpre : List.IsPrefix ((get_cache_key md5hex url ++ ".").data) f.1.data :=
      of_decide_eq_true hmatch
    obtain ⟨tail, htail⟩ := hpre
    refine ⟨tail, ?_⟩
    rw [← hp]
    simp only [String.data_append, List.append_assoc] at htail ⊢
    rw [htail]
  | none =>
    rw [hf] at h
    cases dl with
    | none => exact absurd h (by simp)
    | some es =>
      rcases es with ⟨ext, size⟩
      simp only [Option.some.injEq, Prod.mk.injEq] at h
      obtain ⟨hp, hs, hb⟩ := h
      refine ⟨ext.data, ?_⟩
      rw [← hp]
      simp [String.data_append, List.append_assoc]

/-- Claim C8: For every video URL whose cache key matches an existing file in
the cache directory, `download_audio` returns that (first matching) cached
file's path with the cache state unchanged and without starting a new
download; and for two consecutive calls with the same URL that both return
a path, both paths carry the same cache-key basename — each begins with
`CACHE_DIR`, a slash, the key and a dot, for the same key (cache-hit idempotence). -/
theorem download_audio_cache_idempotent (md5hex : String → String) (url : String) :
    (∀ (dl : Option (String × Nat)) (s : CacheState) (f : String × Nat),
      s.cacheFiles.find? (fun g => cacheKeyMatches (get_cache_key md5hex url) g.1) =
        some f →
      download_audio md5hex dl s url = some (CACHE_DIR ++ "/" ++ f.1, s, false)) ∧
    (∀ (dl1 dl2 : Option (String × Nat)) (s : CacheState)
      (p1 : String) (s1 : CacheState) (b1 : Bool)
      (p2 : String) (s2 : CacheState) (b2 : Bool),
      download_audio md5hex dl1 s url = some (p1, s1, b1) →
      download_audio md5hex dl2 s1 url = some (p2, s2, b2) →
      List.IsPrefix ((CACHE_DIR ++ "/" ++ get_cache_key md5hex url ++ ".").data)
        p1.data ∧
      List.IsPrefix ((CACHE_DIR ++ "/" ++ get_cache_key md5hex url ++ ".").data)
        p2.data) := by
  constructor
  · intro dl s f hf
    simp only [download_audio]
    rw [hf]
  · intro dl1 dl2 s p1 s1 b1 p2 s2 b2 h1 h2
    exact ⟨download_audio_path_key md5hex url dl1 s p1 s1 b1 h1,
           download_audio_path_key md5hex url dl2 s1 p2 s2 b2 h2⟩

/-- Witness for C8 with hash `"cafe"`: a cache hit returns the cached
path unchanged, and a download followed by a second call yields paths that
both begin with `/tmp/cache/cafe.`. -/
theorem download_audio_cache_idempotent_witness :
    download_audio (fun _ => "cafe") none ⟨[("cafe.m4a", 100)], []⟩ "u" =
      some (CACHE_DIR ++ "/" ++ "cafe.m4a", ⟨[("cafe.m4a", 100)], []⟩, false) ∧
    ( List.IsPrefix
        ((CACHE_DIR ++ "/" ++ get_cache_key (fun _ => "cafe") "u" ++ ".").data)
        ("/tmp/cache/cafe.m4a".data) ∧
      List.IsPrefix
        ((CACHE_DIR ++ "/" ++ get_cache_key (fun _ => "cafe") "u" ++ ".").data)
        ("/tmp/cache/cafe.m4a".data)) :=
  ⟨(download_audio_cache_idempotent (fun _ => "cafe") "u").1 none
      ⟨[("cafe.m4a", 100)], []⟩ ("cafe.m4a", 100) (by decide),
   (download_audio_cache_idempotent (fun _ => "cafe") "u").2
      (some ("m4a", 100)) none ⟨[], []⟩
      "/tmp/cache/cafe.m4a" ⟨[("cafe.m4a", 100)], []⟩ true
      "/tmp/cache/cafe.m4a" ⟨[("cafe.m4a", 100)], []⟩ false
      (by decide) (by decide)⟩

/-- Claim C9: For every URL not containing the substring `"spotify.com"`,
`resolve_spotify_link` returns the URL unchanged and performs no network
request; and whenever a network request is performed, the URL did contain
that substring. -/
theorem resolve_spotify_link_passthrough (api : ApiResponse) (url : String) :
    (containsSpotify url = false →
      resolve_spotify_link api url = (Except.ok url, false)) ∧
    ((resolve_spotify_link api url).2 = true → containsSpotify url = true) := by
  constructor
  · intro h
    simp [resolve_spotify_link, h]
  · intro h
    cases hcs : containsSpotify url
    · rw [show resolve_spotify_link api url = (Except.ok url, false) by
        simp [resolve_spotify_link, hcs]] at h
      simp at h
    · rfl

/-- Witness for C9: a YouTube URL passes through untouched with no
network request. -/
theorem resolve_spotify_link_passthrough_witness :
    resolve_spotify_link ApiResponse.httpError "https://youtu.be/dQw4" =
      (Except.ok "https://youtu.be/dQw4", false) :=
  (resolve_spotify_link_passthrough ApiResponse.httpError "https://youtu.be/dQw4").1
    (by decide)

lemma download_video_endpoint_eq_audio :
    download_video_endpoint = download_audio_endpoint := rfl

lemma download_audio_endpoint_falsy (search : SearchResult)
    (spotifyApi : ApiResponse) (dl : Option String) (url title : Option String)
    (hu : truthyOpt url = false) (ht : truthyOpt title = false) :
    download_audio_endpoint search spotifyApi dl url title = 400 := by
  simp [download_audio_endpoint, hu, ht]

lemma endpoint_resolve_url_cases (search : SearchResult) (url title : Option String) :
    endpoint_resolve_url search url title = Except.error 500 ∨
    endpoint_resolve_url search url title = Except.error 404 ∨
    ∃ u, endpoint_resolve_url search url title = Except.ok u := by
  unfold endpoint_resolve_url
  by_cases h : (truthyOpt title && !truthyOpt url) = true
  · rw [if_pos h]
    rcases search with _ | _ | l <;> simp
  · rw [if_neg h]
    exact Or.inr (Or.inr ⟨url.getD "", rfl⟩)

lemma endpoint_spotify_step_cases (spotifyApi : ApiResponse) (u : String) :
    endpoint_spotify_step spotifyApi u = Except.error 500 ∨
    ∃ v, endpoint_spotify_step spotifyApi u = Except.ok v := by
  unfold endpoint_spotify_step
  by_cases h : (truthyStr u && containsSpotify u) = true
  · rw [if_pos h]
    have hcs : containsSpotify u = true := by
      cases hb : containsSpotify u
      · rw [hb, Bool.and_false] at h
        exact absurd h (by simp)
      · rfl
    unfold resolve_spotify_link
    rw [if_pos hcs]
    rcases spotifyApi with _ | _ | sl <;> simp
  · rw [if_neg h]
    exact Or.inr ⟨u, rfl⟩

lemma download_audio_endpoint_nonfalsy (search : SearchResult)
    (spotifyApi : ApiResponse) (dl : Option String) (url title : Option String)
    (h : truthyOpt url = true ∨ truthyOpt title = true) :
    download_audio_endpoint search spotifyApi dl url title = 200 ∨
    download_audio_endpoint search spotifyApi dl url title = 404 ∨
    download_audio_endpoint search spotifyApi dl url title = 500 := by
  have hcond : (!truthyOpt url && !truthyOpt title) = false := by
    rcases h with h | h <;> simp [h]
  unfold download_audio_endpoint
  rw [hcond]
  simp only [Bool.false_eq_true, if_false]
  rcases endpoint_resolve_url_cases search url title with h1 | h1 | ⟨u, h1⟩ <;>
    simp only [h1]
  · simp
  · simp
  · rcases endpoint_spotify_step_cases spotifyApi u with h2 | ⟨v, h2⟩ <;>
      simp only [h2]
    · simp
    · rcases dl with _ | p <;> simp

/-- Counterexample to claim C10 as stated: the request `?url=` supplies a
`url` query parameter (with empty value, so `url = some ""` and
`some "" ≠ none`), yet both endpoints answer 400 — not 404 or 500 — because
the code tests Python truthiness, under which an empty parameter counts the
same as an absent one. -/
theorem endpoints_empty_url_counterexample :
    (some "" : Option String) ≠ none ∧
    download_audio_endpoint SearchResult.apiError ApiResponse.httpError none
      (some "") none = 400 ∧
    ¬(download_audio_endpoint SearchResult.apiError ApiResponse.httpError none
        (some "") none = 404 ∨
      download_audio_endpoint SearchResult.apiError ApiResponse.httpError none
        (some "") none = 500) ∧
    download_video_endpoint SearchResult.apiError ApiResponse.httpError none
      (some "") none = 400 ∧
    ¬(download_video_endpoint SearchResult.apiError ApiResponse.httpError none
        (some "") none = 404 ∨
      download_video_endpoint SearchResult.apiError ApiResponse.httpError none
        (some "") none = 500) := by
  refine ⟨by simp, rfl, by decide, rfl, by decide⟩

/-- Claim C10 (amended): the `/download` and `/vdown` endpoints respond with
HTTP status 400 exactly when the request supplies neither a nonempty `url`
nor a nonempty `title` query parameter (Python truthiness: an absent and an
empty parameter count alike); when at least one is nonempty, the response
status is 200, 404 or 500 — any failure is reported with 404 or 500, never
400. -/
theorem endpoints_status_spec (search : SearchResult) (spotifyApi : ApiResponse)
    (dl : Option String) (url title : Option String) :
    (download_audio_endpoint search spotifyApi dl url title = 400 ↔
      truthyOpt url = false ∧ truthyOpt title = false) ∧
    (download_video_endpoint search spotifyApi dl url title = 400 ↔
      truthyOpt url = false ∧ truthyOpt title = false) ∧
    ((truthyOpt url = true ∨ truthyOpt title = true) →
      (download_audio_endpoint search spotifyApi dl url title = 200 ∨
       download_audio_endpoint search spotifyApi dl url title = 404 ∨
       download_audio_endpoint search spotifyApi dl url title = 500) ∧
      (download_video_endpoint search spotifyApi dl url title = 200 ∨
       download_video_endpoint search spotifyApi dl url title = 404 ∨
       download_video_endpoint search spotifyApi dl url title = 500)) := by
  have hiff : download_audio_endpoint search spotifyApi dl url title = 400 ↔
      truthyOpt url = false ∧ truthyOpt title = false := by
    constructor
    · intro h400
      by_contra hc
      have htr : truthyOpt url = true ∨ truthyOpt title = true := by
        cases hu : truthyOpt url
        · cases ht : truthyOpt title
          · exact absurd ⟨hu, ht⟩ hc
          · exact Or.inr rfl
        · exact Or.inl rfl
      have := download_audio_endpoint_nonfalsy search spotifyApi dl url title htr
      omega
    · intro ⟨hu, ht⟩
      exact download_audio_endpoint_falsy search spotifyApi dl url title hu ht
  refine ⟨hiff, ?_, ?_⟩
  · rw [download_video_endpoint_eq_audio]
    exact hiff
  · intro htr
    refine ⟨download_audio_endpoint_nonfalsy search spotifyApi dl url title htr, ?_⟩
    rw [download_video_endpoint_eq_audio]
    exact download_audio_endpoint_nonfalsy search spotifyApi dl url title htr

/-- Witness for the amended C10: with a nonempty `url` and a failing
download, both endpoints answer one of 200/404/500 (here 500). -/
theorem endpoints_status_spec_witness :
    (download_audio_endpoint SearchResult.apiError ApiResponse.httpError none
        (some "https://youtu.be/x") none = 200 ∨
     download_audio_endpoint SearchResult.apiError ApiResponse.httpError none
        (some "https://youtu.be/x") none = 404 ∨
     download_audio_endpoint SearchResult.apiError ApiResponse.httpError none
        (some "https://youtu.be/x") none = 500) ∧
    (download_video_endpoint SearchResult.apiError ApiResponse.httpError none
        (some "https://youtu.be/x") none = 200 ∨
     download_video_endpoint SearchResult.apiError ApiResponse.httpError none
        (some "https://youtu.be/x") none = 404 ∨
     download_video_endpoint SearchResult.apiError ApiResponse.httpError none
        (some "https://youtu.be/x") none = 500) :=
  (endpoints_status_spec SearchResult.apiError ApiResponse.httpError none
    (some "https://youtu.be/x") none).2.2 (Or.inl (by decide))
